import Mathlib

/-!
Verification of the Arbalest-VEC mapping-and-validity tracker.

The development shallowly embeds the `AnnotateMapping` lifecycle dispatcher
of `tsan_interface_ann.cpp` (shipped in the repository README) together with
the Arbalest instrumentation fragment of
`llvm/lib/Transforms/Instrumentation/ThreadSanitizer.cpp`.

The dispatcher's control flow (flag tests, registry calls, assertion points,
shadow-update calls) is translated directly from the source.  The interval
registry (`h_to_t` / `t_to_h`), the `Vsm*` shadow updates, `IsAppMem` and the
runtime checkers are declared but not defined in the source tree; those
operations are modelled from the specification, as noted on each definition.
-/

namespace Arbalest

/-- Half-open interval `[left_end, right_end)`; field names from the source
(`host.left_end`, `host.right_end`). -/
structure Interval where
  left_end : Nat
  right_end : Nat
deriving DecidableEq, Repr

/-- Mapping record: counterpart base address, size in bytes, optional
variable name (`MapInfo mh = {src_addr, bytes, var_name}` in the source). -/
structure MapInfo where
  start : Nat
  size : Nat
  var_name : Option String
deriving DecidableEq, Repr

/-- A registry node pairs an interval with its `MapInfo`
(`Node mapping = {target, mh}` in the source). -/
structure Node where
  range : Interval
  info : MapInfo
deriving DecidableEq, Repr

/-- Interval overlap test, exactly the computation of `FindRace` in the
source: `maxbegin = max(a.begin, b.begin); minend = min(a.end, b.end);
overlap iff maxbegin < minend`. -/
def overlap (a b : Interval) : Bool :=
  decide (max a.left_end b.left_end < min a.right_end b.right_end)

/-- Expected-race record as in the source (`ExpectRace`), reduced to the
interval data used by `FindRace`. -/
structure ExpectRace where
  addr : Nat
  size : Nat
deriving DecidableEq, Repr

/-- `FindRace(list, addr, size)` from the source: return the first record in
the list whose `[addr, addr+size)` interval overlaps the query interval. -/
def FindRace (l : List ExpectRace) (addr size : Nat) : Option ExpectRace :=
  l.find? (fun r => decide (max r.addr addr < min (r.addr + r.size) (addr + size)))

/-- Modelled from the spec: the ordered interval-to-record store used for
`ctx->h_to_t` and `ctx->t_to_h`; its class definition is not in the source
tree, only its call sites, so it is modelled as a list of nodes per
spec section 4.1. -/
structure IntervalMap where
  nodes : List Node
deriving DecidableEq, Repr

/-- Modelled from the spec: `insert(side, interval, record) -> bool` returns
`false` on an overlap conflict and performs the insert regardless. -/
def IntervalMap.insert (m : IntervalMap) (i : Interval) (inf : MapInfo) :
    Bool × IntervalMap :=
  (!(m.nodes.any (fun nd => overlap nd.range i)), ⟨⟨i, inf⟩ :: m.nodes⟩)

/-- Modelled from the spec: `removeAllNodesWithinRange` deletes every record
overlapping the interval. -/
def IntervalMap.removeAllNodesWithinRange (m : IntervalMap) (i : Interval) :
    IntervalMap :=
  ⟨m.nodes.filter (fun nd => !(overlap nd.range i))⟩

/-- Modelled from the spec: `find` is an overlap lookup returning the
covering record, or nothing ("address not involved in any mapping"). -/
def IntervalMap.find (m : IntervalMap) (i : Interval) : Option Node :=
  m.nodes.find? (fun nd => overlap nd.range i)

/-- Modelled from the spec: `remove(side, interval)` deletes the single
record covering the interval. -/
def IntervalMap.remove (m : IntervalMap) (i : Interval) : IntervalMap :=
  ⟨m.nodes.eraseP (fun nd => overlap nd.range i)⟩

/-- Per-cell validity state: `device_has_value` (copy-to occurred) and
`host_has_value` (copy-from occurred).  Modelled from the spec: the exact
bit layout lives in the `Vsm*` helpers absent from the source tree; the
spec fixes two booleans per cell, at a configurable granularity, modelled
here at byte granularity. -/
structure Cell where
  device_has_value : Bool
  host_has_value : Bool
deriving DecidableEq, Repr

/-- The validity shadow: one `Cell` per tracked address. -/
def Vsm : Type := Nat → Cell

/-- Pointwise range update of the shadow over `[a, a+n)`. -/
def vsmSetRange (f : Vsm) (a n : Nat) (g : Cell → Cell) : Vsm :=
  fun x => if a ≤ x ∧ x < a + n then g (f x) else f x

/-- Modelled from the spec: `VsmRangeDeviceReset(addr, bytes)` marks the
cells over `[addr, addr+bytes)` as not device-valid (value reset). -/
def VsmRangeDeviceReset (f : Vsm) (a n : Nat) : Vsm :=
  vsmSetRange f a n (fun c => { c with device_has_value := false })

/-- Modelled from the spec: `VsmRangeUpdateMapTo(addr, bytes)` sets
`device_has_value = true` over `[addr, addr+bytes)`. -/
def VsmRangeUpdateMapTo (f : Vsm) (a n : Nat) : Vsm :=
  vsmSetRange f a n (fun c => { c with device_has_value := true })

/-- Modelled from the spec: `VsmRangeUpdateMapFrom(addr, bytes)` sets
`host_has_value = true` over `[addr, addr+bytes)`. -/
def VsmRangeUpdateMapFrom (f : Vsm) (a n : Nat) : Vsm :=
  vsmSetRange f a n (fun c => { c with host_has_value := true })

/-- The flag bits of `ompt_device_mem_flag_t`, values from the source. -/
def ompt_device_mem_flag_to : Nat := 0x01

/-- `ompt_device_mem_flag_from = 0x02`. -/
def ompt_device_mem_flag_from : Nat := 0x02

/-- `ompt_device_mem_flag_alloc = 0x04`. -/
def ompt_device_mem_flag_alloc : Nat := 0x04

/-- `ompt_device_mem_flag_release = 0x08`. -/
def ompt_device_mem_flag_release : Nat := 0x08

/-- `ompt_device_mem_flag_associate = 0x10`. -/
def ompt_device_mem_flag_associate : Nat := 0x10

/-- `ompt_device_mem_flag_disassociate = 0x20`. -/
def ompt_device_mem_flag_disassociate : Nat := 0x20

/-- The fatal diagnostics `AnnotateMapping` can raise via `ASSERT`. -/
inductive Diag where
  | appMemAssert
  | associateConflict
  | toNotMapped
  | fromNotMapped
  | disassociateNotMapped
deriving DecidableEq, Repr

/-- The tracker's shared state: the two registry sides and the validity
shadow (`ctx->h_to_t`, `ctx->t_to_h`, and the shadow the `Vsm*` calls
mutate). -/
structure TrackerCtx where
  h_to_t : IntervalMap
  t_to_h : IntervalMap
  vsm : Vsm

/-- Outcome of one `AnnotateMapping` call: the state reached, plus the fatal
diagnostic at which processing aborted, if any (a tsan `ASSERT` failure
stops execution at that point, leaving the state as mutated so far). -/
structure AmResult where
  ctx : TrackerCtx
  fatal : Option Diag

/-- Sequence two dispatcher steps; a fatal assertion aborts the rest. -/
def amBind (r : AmResult) (f : TrackerCtx → AmResult) : AmResult :=
  match r.fatal with
  | some _ => r
  | none => f r.ctx

/-- The `ompt_device_mem_flag_alloc` branch of `AnnotateMapping`.  Its body
is empty in the source (`if (optype & ompt_device_mem_flag_alloc) { }`), so
the step is the identity. -/
def stepAlloc (_optype : Nat) (ctx : TrackerCtx) : AmResult :=
  ⟨ctx, none⟩

/-- The `associate` branch: insert on both sides, repair the host side on
conflict via `removeAllNodesWithinRange` + re-insert, assert the device-side
insert succeeded, and, when `To` is not also set, reset the device-validity
bits of the cells of the mapped range (`VsmRangeDeviceReset(host.left_end,
bytes)`). -/
def stepAssociate (optype : Nat) (host target : Interval) (mh mt : MapInfo)
    (bytes : Nat) (ctx : TrackerCtx) : AmResult :=
  if optype &&& ompt_device_mem_flag_associate ≠ 0 then
    let ia := ctx.h_to_t.insert host mt
    let ib := ctx.t_to_h.insert target mh
    let h2 := if !ia.1 then
        ((ia.2.removeAllNodesWithinRange host).insert host mt).2
      else ia.2
    let ctx1 : TrackerCtx := { ctx with h_to_t := h2, t_to_h := ib.2 }
    if !ib.1 then ⟨ctx1, some .associateConflict⟩
    else if optype &&& ompt_device_mem_flag_to = 0 then
      ⟨{ ctx1 with vsm := VsmRangeDeviceReset ctx1.vsm host.left_end bytes }, none⟩
    else ⟨ctx1, none⟩
  else ⟨ctx, none⟩

/-- The `to` branch: `CheckMappingBound` (modelled from the spec as
report-only, never mutating registry or shadow, hence absent from the state
transition), then require `t_to_h.find(target)` to succeed and mark the
mapped range device-valid (`VsmRangeUpdateMapTo(host.left_end, bytes)`). -/
def stepTo (optype : Nat) (host target : Interval) (bytes : Nat)
    (ctx : TrackerCtx) : AmResult :=
  if optype &&& ompt_device_mem_flag_to ≠ 0 then
    match ctx.t_to_h.find target with
    | none => ⟨ctx, some .toNotMapped⟩
    | some _ =>
      ⟨{ ctx with vsm := VsmRangeUpdateMapTo ctx.vsm host.left_end bytes }, none⟩
  else ⟨ctx, none⟩

/-- The `from` branch: require `t_to_h.find(target)` to succeed and mark the
mapped range host-valid (`VsmRangeUpdateMapFrom(host.left_end, bytes)`). -/
def stepFrom (optype : Nat) (host target : Interval) (bytes : Nat)
    (ctx : TrackerCtx) : AmResult :=
  if optype &&& ompt_device_mem_flag_from ≠ 0 then
    match ctx.t_to_h.find target with
    | none => ⟨ctx, some .fromNotMapped⟩
    | some _ =>
      ⟨{ ctx with vsm := VsmRangeUpdateMapFrom ctx.vsm host.left_end bytes }, none⟩
  else ⟨ctx, none⟩

/-- The `disassociate` branch: require `t_to_h.find(target)` to succeed
(fatal "does not involve in any mapping" otherwise) and remove the
device-side record. -/
def stepDisassociate (optype : Nat) (target : Interval) (ctx : TrackerCtx) :
    AmResult :=
  if optype &&& ompt_device_mem_flag_disassociate ≠ 0 then
    match ctx.t_to_h.find target with
    | none => ⟨ctx, some .disassociateNotMapped⟩
    | some _ => ⟨{ ctx with t_to_h := ctx.t_to_h.remove target }, none⟩
  else ⟨ctx, none⟩

/-- The `release` branch.  Its entire body is commented out in the source
(the registry removal and the SIMD shadow-clearing loop are disabled), so
the step is the identity. -/
def stepRelease (_optype : Nat) (ctx : TrackerCtx) : AmResult :=
  ⟨ctx, none⟩

/-- `AnnotateMapping(src_addr, dest_addr, bytes, optype, codeptr, var_name)`
translated from the source: build the host/target intervals and `MapInfo`
pair, assert both endpoints of the host interval are application memory
(`IsAppMem` is not in the source tree and is passed as a parameter), then
run the flag branches in source order (alloc, associate, to, from,
disassociate, release), aborting at the first failed `ASSERT`. -/
def AnnotateMapping (isAppMem : Nat → Bool) (ctx : TrackerCtx)
    (src_addr dest_addr bytes optype : Nat) (var_name : Option String) :
    AmResult :=
  let host : Interval := ⟨src_addr, src_addr + bytes⟩
  let target : Interval := ⟨dest_addr, dest_addr + bytes⟩
  let mh : MapInfo := ⟨src_addr, bytes, var_name⟩
  let mt : MapInfo := ⟨dest_addr, bytes, var_name⟩
  if isAppMem host.left_end && isAppMem (host.right_end - 1) then
    amBind (stepAlloc optype ctx) (fun c1 =>
    amBind (stepAssociate optype host target mh mt bytes c1) (fun c2 =>
    amBind (stepTo optype host target bytes c2) (fun c3 =>
    amBind (stepFrom optype host target bytes c3) (fun c4 =>
    amBind (stepDisassociate optype target c4) (fun c5 =>
    stepRelease optype c5)))))
  else ⟨ctx, some .appMemAssert⟩

/-- Modelled from the spec: the device-side validity check performed by the
instrumented load hooks (`__arbalest_read*`), which are not in the source
tree.  Per spec section 4.3 it looks up the covering shadow cells — which
the dispatcher maintains keyed by the mapped host range — translating the
device access through the device-to-host registry, and reports one
Inconsistency violation for each accessed cell whose `device_has_value` is
false.  Returns the list of violating cell addresses. -/
def check_access (ctx : TrackerCtx) (addr n : Nat) : List Nat :=
  match ctx.t_to_h.find ⟨addr, addr + n⟩ with
  | none => []
  | some nd =>
    ((List.range n).map (fun o => nd.info.start + (addr - nd.range.left_end) + o)).filter
      (fun a => !(ctx.vsm a).device_has_value)

/-- Modelled from the spec: the bound check of the access checker
(`__arbalest_check_bound` / `CheckMappingBound`, absent from the source
tree).  Per spec section 4.3, a derived access of `n` bytes violates the
bound iff `[derived, derived + n)` is not contained in
`[base, base + recSize)`.  Returns `true` on violation. -/
def check_bound (base derived n recSize : Nat) : Bool :=
  !(decide (base ≤ derived) && decide (derived + n ≤ base + recSize))

/-- The tracker state at process start: both registry sides empty, every
shadow cell uninitialized. -/
def initCtx : TrackerCtx :=
  ⟨⟨[]⟩, ⟨[]⟩, fun _ => ⟨false, false⟩⟩

/-- A tracker state holding a fully established, fully valid mapping of
host `[0x1000, 0x1004)` to device `[0x7b80, 0x7b84)`: both registry sides
populated and every shadow cell marked valid on both sides (the state after
`Associate|To|From`). -/
def ctxValid : TrackerCtx :=
  ⟨⟨[⟨⟨0x1000, 0x1004⟩, ⟨0x7b80, 4, none⟩⟩]⟩,
   ⟨[⟨⟨0x7b80, 0x7b84⟩, ⟨0x1000, 4, none⟩⟩]⟩,
   fun _ => ⟨true, true⟩⟩

/-- Mini-IR instruction for the Arbalest instrumentation fragment of
`ThreadSanitizer.cpp`: loads and stores carry their pointer operand and
access size; GEPs carry their base-pointer operand.  Operands are
referenced by instruction id. -/
inductive Inst where
  | load (id ptr sz : Nat)
  | store (id ptr sz : Nat)
  | gep (id base : Nat)
  | other (id : Nat)
deriving DecidableEq, Repr

/-- An inserted `__arbalest_check_bound(base, derived, size)` call, placed
immediately before the load instruction with id `at_load`. -/
structure CheckBoundCall where
  base : Nat
  derived : Nat
  size : Nat
  at_load : Nat
deriving DecidableEq, Repr

/-- `ThreadSanitizer::Arbalest::instrumentGEP` from the source: iterate over
the uses of the GEP; for each user that is a load instruction, insert a call
to `__arbalest_check_bound(BasePtr, GEP, Size)` before that load; users
that are not loads (stores included) get nothing. -/
def instrumentGEP (body : List Inst) (gid gbase : Nat) : List CheckBoundCall :=
  body.filterMap (fun i =>
    match i with
    | .load lid ptr sz => if ptr = gid then some ⟨gbase, gid, sz, lid⟩ else none
    | _ => none)

/-- The Arbalest GEP loop of `ThreadSanitizer::sanitizeFunction`: only when
the function name starts with the OpenMP outlined-function name marker
(`OutlinedFuncPrefix` in the source, `.omp_outlined` or
`.omp_outlined._debug__` as set by `setOmpOutlinedFuncPrefix`), call
`instrumentGEP` on every GetElementPtr instruction of the body.  Names are
modelled as character lists; `startswith` is the list-prefix test. -/
def arbalestGEPChecks (pfx fname : List Char) (body : List Inst) :
    List CheckBoundCall :=
  if pfx.isPrefixOf fname then
    body.flatMap (fun i =>
      match i with
      | .gep gid gbase => instrumentGEP body gid gbase
      | _ => [])
  else []

/-- The optimized-build outlined-function name marker from
`setOmpOutlinedFuncPrefix`. -/
def OptPfx : List Char := ".omp_outlined".toList

/-- The debug-build outlined-function name marker from
`setOmpOutlinedFuncPrefix`. -/
def DebugPfx : List Char := ".omp_outlined._debug__".toList

end Arbalest

namespace Arbalest

lemma amBind_mk_none (c : TrackerCtx) (f : TrackerCtx → AmResult) :
    amBind ⟨c, none⟩ f = f c := rfl

lemma amBind_mk_some (c : TrackerCtx) (d : Diag) (f : TrackerCtx → AmResult) :
    amBind ⟨c, some d⟩ f = ⟨c, some d⟩ := rfl

lemma amBind_id (r : AmResult) : amBind r (fun c => ⟨c, none⟩) = r := by
  cases r with
  | mk c fa => cases fa <;> rfl

lemma amBind_h_to_t (r : AmResult) (f : TrackerCtx → AmResult)
    (hf : ∀ c, ((f c).ctx).h_to_t = c.h_to_t) :
    ((amBind r f).ctx).h_to_t = (r.ctx).h_to_t := by
  cases r with
  | mk c fa => cases fa with
    | none => exact hf c
    | some d => rfl

lemma amBind_fatal_ne (r : AmResult) (f : TrackerCtx → AmResult) (d : Diag)
    (hr : r.fatal ≠ some d) (hf : ∀ c, (f c).fatal ≠ some d) :
    (amBind r f).fatal ≠ some d := by
  cases r with
  | mk c fa => cases fa with
    | none => exact hf c
    | some d' => exact hr

lemma stepAlloc_eq (optype : Nat) (ctx : TrackerCtx) :
    stepAlloc optype ctx = ⟨ctx, none⟩ := rfl

lemma stepRelease_eq (optype : Nat) (ctx : TrackerCtx) :
    stepRelease optype ctx = ⟨ctx, none⟩ := rfl

lemma stepAssociate_not (optype : Nat) (host target : Interval)
    (mh mt : MapInfo) (bytes : Nat) (ctx : TrackerCtx)
    (h : optype &&& ompt_device_mem_flag_associate = 0) :
    stepAssociate optype host target mh mt bytes ctx = ⟨ctx, none⟩ := by
  unfold stepAssociate
  simp [h]

lemma stepTo_not (optype : Nat) (host target : Interval) (bytes : Nat)
    (ctx : TrackerCtx) (h : optype &&& ompt_device_mem_flag_to = 0) :
    stepTo optype host target bytes ctx = ⟨ctx, none⟩ := by
  unfold stepTo
  simp [h]

lemma stepFrom_not (optype : Nat) (host target : Interval) (bytes : Nat)
    (ctx : TrackerCtx) (h : optype &&& ompt_device_mem_flag_from = 0) :
    stepFrom optype host target bytes ctx = ⟨ctx, none⟩ := by
  unfold stepFrom
  simp [h]

lemma stepDisassociate_not (optype : Nat) (target : Interval)
    (ctx : TrackerCtx) (h : optype &&& ompt_device_mem_flag_disassociate = 0) :
    stepDisassociate optype target ctx = ⟨ctx, none⟩ := by
  unfold stepDisassociate
  simp [h]

lemma stepTo_h_to_t (optype : Nat) (host target : Interval) (bytes : Nat)
    (ctx : TrackerCtx) :
    ((stepTo optype host target bytes ctx).ctx).h_to_t = ctx.h_to_t := by
  unfold stepTo
  repeat' split
  all_goals rfl

lemma stepFrom_h_to_t (optype : Nat) (host target : Interval) (bytes : Nat)
    (ctx : TrackerCtx) :
    ((stepFrom optype host target bytes ctx).ctx).h_to_t = ctx.h_to_t := by
  unfold stepFrom
  repeat' split
  all_goals rfl

lemma stepDisassociate_h_to_t (optype : Nat) (target : Interval)
    (ctx : TrackerCtx) :
    ((stepDisassociate optype target ctx).ctx).h_to_t = ctx.h_to_t := by
  unfold stepDisassociate
  repeat' split
  all_goals rfl

lemma stepAssociate_fatal_ne_appmem (optype : Nat) (host target : Interval)
    (mh mt : MapInfo) (bytes : Nat) (ctx : TrackerCtx) :
    (stepAssociate optype host target mh mt bytes ctx).fatal ≠
      some Diag.appMemAssert := by
  unfold stepAssociate
  dsimp only
  split_ifs <;> simp

lemma stepTo_fatal_ne_appmem (optype : Nat) (host target : Interval)
    (bytes : Nat) (ctx : TrackerCtx) :
    (stepTo optype host target bytes ctx).fatal ≠ some Diag.appMemAssert := by
  unfold stepTo
  repeat' split
  all_goals simp

lemma stepFrom_fatal_ne_appmem (optype : Nat) (host target : Interval)
    (bytes : Nat) (ctx : TrackerCtx) :
    (stepFrom optype host target bytes ctx).fatal ≠ some Diag.appMemAssert := by
  unfold stepFrom
  repeat' split
  all_goals simp

lemma stepDisassociate_fatal_ne_appmem (optype : Nat) (target : Interval)
    (ctx : TrackerCtx) :
    (stepDisassociate optype target ctx).fatal ≠ some Diag.appMemAssert := by
  unfold stepDisassociate
  repeat' split
  all_goals simp

lemma AnnotateMapping_appmem_pass (isAppMem : Nat → Bool) (ctx : TrackerCtx)
    (src_addr dest_addr bytes optype : Nat) (var_name : Option String)
    (h1 : isAppMem src_addr = true)
    (h2 : isAppMem (src_addr + bytes - 1) = true) :
    AnnotateMapping isAppMem ctx src_addr dest_addr bytes optype var_name =
      amBind (stepAssociate optype ⟨src_addr, src_addr + bytes⟩
          ⟨dest_addr, dest_addr + bytes⟩ ⟨src_addr, bytes, var_name⟩
          ⟨dest_addr, bytes, var_name⟩ bytes ctx) (fun c2 =>
        amBind (stepTo optype ⟨src_addr, src_addr + bytes⟩
            ⟨dest_addr, dest_addr + bytes⟩ bytes c2) (fun c3 =>
          amBind (stepFrom optype ⟨src_addr, src_addr + bytes⟩
              ⟨dest_addr, dest_addr + bytes⟩ bytes c3) (fun c4 =>
            stepDisassociate optype ⟨dest_addr, dest_addr + bytes⟩ c4))) := by
  unfold AnnotateMapping
  rw [if_pos (by simp [h1, h2])]
  simp only [stepAlloc_eq, amBind_mk_none, stepRelease_eq, amBind_id]

lemma AnnotateMapping_appmem_fail (isAppMem : Nat → Bool) (ctx : TrackerCtx)
    (src_addr dest_addr bytes optype : Nat) (var_name : Option String)
    (h : (isAppMem src_addr && isAppMem (src_addr + bytes - 1)) = false) :
    AnnotateMapping isAppMem ctx src_addr dest_addr bytes optype var_name =
      ⟨ctx, some Diag.appMemAssert⟩ := by
  unfold AnnotateMapping
  rw [if_neg (by simp [h])]

lemma amBind_of_fatal (r : AmResult) (f : TrackerCtx → AmResult) (d : Diag)
    (h : r.fatal = some d) : amBind r f = r := by
  cases r with
  | mk c fa =>
    cases fa with
    | none => exact absurd h (by simp)
    | some d' => rfl

lemma overlap_self (a n : Nat) (h : 0 < n) :
    overlap ⟨a, a + n⟩ ⟨a, a + n⟩ = true := by
  simp only [overlap, decide_eq_true_eq, max_self, min_self]
  omega

lemma filter_keep_head {α : Type} (p : α → Bool) (a : α) (l : List α)
    (ha : p a = true) (hl : l.filter p = []) : (a :: l).filter p = [a] := by
  simp [List.filter_cons, ha, hl]

lemma filter_not_filter {α : Type} (p : α → Bool) (l : List α) :
    (l.filter (fun a => !(p a))).filter p = [] := by
  induction l with
  | nil => rfl
  | cons x xs ih =>
    cases hx : p x with
    | true => simp [List.filter_cons, hx, ih]
    | false => simp [List.filter_cons, hx, ih]

lemma stepAssociate_t_to_h (optype : Nat) (host target : Interval)
    (mh mt : MapInfo) (bytes : Nat) (ctx : TrackerCtx)
    (hA : optype &&& ompt_device_mem_flag_associate ≠ 0) :
    ((stepAssociate optype host target mh mt bytes ctx).ctx).t_to_h =
      ⟨⟨target, mh⟩ :: ctx.t_to_h.nodes⟩ := by
  unfold stepAssociate
  dsimp only
  rw [if_pos hA]
  split_ifs <;> rfl

lemma stepAssociate_fatal (optype : Nat) (host target : Interval)
    (mh mt : MapInfo) (bytes : Nat) (ctx : TrackerCtx)
    (hA : optype &&& ompt_device_mem_flag_associate ≠ 0) :
    (stepAssociate optype host target mh mt bytes ctx).fatal =
      if ctx.t_to_h.nodes.any (fun nd => overlap nd.range target) then
        some Diag.associateConflict
      else none := by
  unfold stepAssociate
  dsimp only
  rw [if_pos hA]
  simp only [IntervalMap.insert, Bool.not_not]
  split_ifs <;> rfl

lemma stepAssociate_h_to_t (optype : Nat) (host target : Interval)
    (mh mt : MapInfo) (bytes : Nat) (ctx : TrackerCtx)
    (hA : optype &&& ompt_device_mem_flag_associate ≠ 0) :
    ((stepAssociate optype host target mh mt bytes ctx).ctx).h_to_t =
      if ctx.h_to_t.nodes.any (fun nd => overlap nd.range host) then
        ⟨⟨host, mt⟩ :: (⟨host, mt⟩ :: ctx.h_to_t.nodes).filter
          (fun nd => !(overlap nd.range host))⟩
      else ⟨⟨host, mt⟩ :: ctx.h_to_t.nodes⟩ := by
  unfold stepAssociate
  dsimp only
  rw [if_pos hA]
  simp only [IntervalMap.insert, IntervalMap.removeAllNodesWithinRange,
    Bool.not_not]
  split_ifs <;> rfl

lemma stepAssociate_vsm_noconf (optype : Nat) (host target : Interval)
    (mh mt : MapInfo) (bytes : Nat) (ctx : TrackerCtx)
    (hA : optype &&& ompt_device_mem_flag_associate ≠ 0)
    (hT : optype &&& ompt_device_mem_flag_to = 0)
    (hconf : ctx.t_to_h.nodes.any (fun nd => overlap nd.range target) = false) :
    ((stepAssociate optype host target mh mt bytes ctx).ctx).vsm =
      VsmRangeDeviceReset ctx.vsm host.left_end bytes := by
  unfold stepAssociate
  dsimp only
  rw [if_pos hA]
  simp only [IntervalMap.insert, Bool.not_not]
  rw [if_neg (by simp [hconf]), if_pos hT]

lemma find?_middle {α : Type} (p : α → Bool) (l₁ : List α) (a : α)
    (l₂ : List α) (h1 : ∀ x ∈ l₁, p x = false) (ha : p a = true) :
    (l₁ ++ a :: l₂).find? p = some a := by
  induction l₁ with
  | nil => simp [List.find?_cons, ha]
  | cons x xs ih =>
    have hx : p x = false := h1 x (by simp)
    simp only [List.cons_append, List.find?_cons, hx]
    exact ih (fun y hy => h1 y (List.mem_cons_of_mem _ hy))

lemma eraseP_middle {α : Type} (p : α → Bool) (l₁ : List α) (a : α)
    (l₂ : List α) (h1 : ∀ x ∈ l₁, p x = false) (ha : p a = true) :
    (l₁ ++ a :: l₂).eraseP p = l₁ ++ l₂ := by
  induction l₁ with
  | nil => simp [List.eraseP_cons, ha]
  | cons x xs ih =>
    have hx : p x = false := h1 x (by simp)
    simp only [List.cons_append, List.eraseP_cons, hx, cond_false]
    rw [ih (fun y hy => h1 y (List.mem_cons_of_mem _ hy))]

lemma VsmRangeUpdateMapTo_in (f : Vsm) (a n x : Nat) (hx1 : a ≤ x)
    (hx2 : x < a + n) : (VsmRangeUpdateMapTo f a n x).device_has_value = true := by
  unfold VsmRangeUpdateMapTo vsmSetRange
  rw [if_pos ⟨hx1, hx2⟩]

lemma VsmRangeUpdateMapFrom_in (f : Vsm) (a n x : Nat) (hx1 : a ≤ x)
    (hx2 : x < a + n) : (VsmRangeUpdateMapFrom f a n x).host_has_value = true := by
  unfold VsmRangeUpdateMapFrom vsmSetRange
  rw [if_pos ⟨hx1, hx2⟩]

lemma VsmRangeDeviceReset_in (f : Vsm) (a n x : Nat) (hx1 : a ≤ x)
    (hx2 : x < a + n) : (VsmRangeDeviceReset f a n x).device_has_value = false := by
  unfold VsmRangeDeviceReset vsmSetRange
  rw [if_pos ⟨hx1, hx2⟩]

lemma stepTo_none (optype : Nat) (host target : Interval) (bytes : Nat)
    (ctx : TrackerCtx) (hT : optype &&& ompt_device_mem_flag_to ≠ 0)
    (hf : ctx.t_to_h.find target = none) :
    stepTo optype host target bytes ctx = ⟨ctx, some Diag.toNotMapped⟩ := by
  unfold stepTo
  rw [if_pos hT]
  simp only [hf]

lemma stepTo_some (optype : Nat) (host target : Interval) (bytes : Nat)
    (ctx : TrackerCtx) (nd : Node)
    (hT : optype &&& ompt_device_mem_flag_to ≠ 0)
    (hf : ctx.t_to_h.find target = some nd) :
    stepTo optype host target bytes ctx =
      ⟨{ ctx with vsm := VsmRangeUpdateMapTo ctx.vsm host.left_end bytes },
        none⟩ := by
  unfold stepTo
  rw [if_pos hT]
  simp only [hf]

lemma stepFrom_none (optype : Nat) (host target : Interval) (bytes : Nat)
    (ctx : TrackerCtx) (hF : optype &&& ompt_device_mem_flag_from ≠ 0)
    (hf : ctx.t_to_h.find target = none) :
    stepFrom optype host target bytes ctx = ⟨ctx, some Diag.fromNotMapped⟩ := by
  unfold stepFrom
  rw [if_pos hF]
  simp only [hf]

lemma stepFrom_some (optype : Nat) (host target : Interval) (bytes : Nat)
    (ctx : TrackerCtx) (nd : Node)
    (hF : optype &&& ompt_device_mem_flag_from ≠ 0)
    (hf : ctx.t_to_h.find target = some nd) :
    stepFrom optype host target bytes ctx =
      ⟨{ ctx with vsm := VsmRangeUpdateMapFrom ctx.vsm host.left_end bytes },
        none⟩ := by
  unfold stepFrom
  rw [if_pos hF]
  simp only [hf]

lemma stepDisassociate_none (optype : Nat) (target : Interval)
    (ctx : TrackerCtx) (hD : optype &&& ompt_device_mem_flag_disassociate ≠ 0)
    (hf : ctx.t_to_h.find target = none) :
    stepDisassociate optype target ctx =
      ⟨ctx, some Diag.disassociateNotMapped⟩ := by
  unfold stepDisassociate
  rw [if_pos hD]
  simp only [hf]

lemma stepDisassociate_some (optype : Nat) (target : Interval)
    (ctx : TrackerCtx) (nd : Node)
    (hD : optype &&& ompt_device_mem_flag_disassociate ≠ 0)
    (hf : ctx.t_to_h.find target = some nd) :
    stepDisassociate optype target ctx =
      ⟨{ ctx with t_to_h := ctx.t_to_h.remove target }, none⟩ := by
  unfold stepDisassociate
  rw [if_pos hD]
  simp only [hf]

lemma AnnotateMapping_to_eq (isAppMem : Nat → Bool) (ctx : TrackerCtx)
    (src_addr dest_addr bytes : Nat) (var_name : Option String)
    (h1 : isAppMem src_addr = true)
    (h2 : isAppMem (src_addr + bytes - 1) = true) :
    AnnotateMapping isAppMem ctx src_addr dest_addr bytes
        ompt_device_mem_flag_to var_name =
      stepTo ompt_device_mem_flag_to ⟨src_addr, src_addr + bytes⟩
        ⟨dest_addr, dest_addr + bytes⟩ bytes ctx := by
  rw [AnnotateMapping_appmem_pass _ _ _ _ _ _ _ h1 h2]
  rw [stepAssociate_not _ _ _ _ _ _ _ (by decide), amBind_mk_none]
  have htail : ∀ c3 : TrackerCtx,
      amBind (stepFrom ompt_device_mem_flag_to ⟨src_addr, src_addr + bytes⟩
          ⟨dest_addr, dest_addr + bytes⟩ bytes c3)
        (fun c4 => stepDisassociate ompt_device_mem_flag_to
          ⟨dest_addr, dest_addr + bytes⟩ c4) = ⟨c3, none⟩ := by
    intro c3
    rw [stepFrom_not _ _ _ _ _ (by decide), amBind_mk_none,
      stepDisassociate_not _ _ _ (by decide)]
  simp only [htail]
  exact amBind_id _

lemma AnnotateMapping_from_eq (isAppMem : Nat → Bool) (ctx : TrackerCtx)
    (src_addr dest_addr bytes : Nat) (var_name : Option String)
    (h1 : isAppMem src_addr = true)
    (h2 : isAppMem (src_addr + bytes - 1) = true) :
    AnnotateMapping isAppMem ctx src_addr dest_addr bytes
        ompt_device_mem_flag_from var_name =
      stepFrom ompt_device_mem_flag_from ⟨src_addr, src_addr + bytes⟩
        ⟨dest_addr, dest_addr + bytes⟩ bytes ctx := by
  rw [AnnotateMapping_appmem_pass _ _ _ _ _ _ _ h1 h2]
  rw [stepAssociate_not _ _ _ _ _ _ _ (by decide), amBind_mk_none]
  rw [stepTo_not _ _ _ _ _ (by decide), amBind_mk_none]
  have htail : ∀ c4 : TrackerCtx,
      stepDisassociate ompt_device_mem_flag_from
        ⟨dest_addr, dest_addr + bytes⟩ c4 = ⟨c4, none⟩ :=
    fun c4 => stepDisassociate_not _ _ _ (by decide)
  simp only [htail]
  exact amBind_id _

lemma AnnotateMapping_disassociate_eq (isAppMem : Nat → Bool)
    (ctx : TrackerCtx) (src_addr dest_addr bytes : Nat)
    (var_name : Option String) (h1 : isAppMem src_addr = true)
    (h2 : isAppMem (src_addr + bytes - 1) = true) :
    AnnotateMapping isAppMem ctx src_addr dest_addr bytes
        ompt_device_mem_flag_disassociate var_name =
      stepDisassociate ompt_device_mem_flag_disassociate
        ⟨dest_addr, dest_addr + bytes⟩ ctx := by
  rw [AnnotateMapping_appmem_pass _ _ _ _ _ _ _ h1 h2]
  rw [stepAssociate_not _ _ _ _ _ _ _ (by decide), amBind_mk_none]
  rw [stepTo_not _ _ _ _ _ (by decide), amBind_mk_none]
  rw [stepFrom_not _ _ _ _ _ (by decide), amBind_mk_none]

/-- C8: intervals are half-open: the overlap predicate of the tracker is
exactly `max(a.begin, b.begin) < min(a.end, b.end)`, and, for a record of
length `size`, a bound check of a `size`-byte access at the derived address
`base + size` is a violation while a 1-byte access at `base + size - 1` is
not. -/
theorem overlap_formula_and_bound_boundary :
    (∀ a b : Interval,
      overlap a b = true ↔
        max a.left_end b.left_end < min a.right_end b.right_end) ∧
    (∀ base size : Nat, 0 < size →
      check_bound base (base + size) size size = true ∧
      check_bound base (base + size - 1) 1 size = false) := by
  constructor
  · intro a b
    simp [overlap]
  · intro base size hs
    constructor
    · have h2 : decide (base + size + size ≤ base + size) = false := by
        rw [decide_eq_false_iff_not]
        omega
      show (!(decide (base ≤ base + size) &&
        decide (base + size + size ≤ base + size))) = true
      rw [h2, Bool.and_false]
      rfl
    · have h1 : decide (base ≤ base + size - 1) = true := by
        rw [decide_eq_true_eq]
        omega
      have h2 : decide (base + size - 1 + 1 ≤ base + size) = true := by
        rw [decide_eq_true_eq]
        omega
      show (!(decide (base ≤ base + size - 1) &&
        decide (base + size - 1 + 1 ≤ base + size))) = false
      rw [h1, h2]
      rfl

/-- Witness for C8 at `base = 0x1000`, `size = 4`. -/
theorem overlap_formula_and_bound_boundary_witness :
    check_bound 0x1000 0x1004 4 4 = true ∧
    check_bound 0x1000 0x1003 1 4 = false :=
  ⟨(overlap_formula_and_bound_boundary.2 0x1000 4 (by decide)).1,
   (overlap_formula_and_bound_boundary.2 0x1000 4 (by decide)).2⟩

/-- C9: `AnnotateMapping` first asserts `IsAppMem` on both the first and the
last byte of the host interval: if either endpoint is outside application
memory the call fails fatally with no state change, for every flag
combination; and the failure branch is unreachable whenever the (nonempty)
host interval lies entirely in application memory. -/
theorem appmem_assert_guards_dispatcher (isAppMem : Nat → Bool)
    (ctx : TrackerCtx) (src_addr dest_addr bytes optype : Nat)
    (var_name : Option String) :
    (¬(isAppMem src_addr = true ∧ isAppMem (src_addr + bytes - 1) = true) →
      AnnotateMapping isAppMem ctx src_addr dest_addr bytes optype var_name =
        ⟨ctx, some Diag.appMemAssert⟩) ∧
    (0 < bytes →
      (∀ a, src_addr ≤ a → a < src_addr + bytes → isAppMem a = true) →
      (AnnotateMapping isAppMem ctx src_addr dest_addr bytes optype
          var_name).fatal ≠ some Diag.appMemAssert) := by
  constructor
  · intro h
    apply AnnotateMapping_appmem_fail
    cases h1 : isAppMem src_addr with
    | false => simp [h1]
    | true =>
      cases h2 : isAppMem (src_addr + bytes - 1) with
      | false => simp [h2]
      | true => exact absurd ⟨h1, h2⟩ h
  · intro hb hall
    have h1 : isAppMem src_addr = true := hall src_addr (Nat.le_refl _) (by omega)
    have h2 : isAppMem (src_addr + bytes - 1) = true :=
      hall (src_addr + bytes - 1) (by omega) (by omega)
    rw [AnnotateMapping_appmem_pass isAppMem ctx src_addr dest_addr bytes
      optype var_name h1 h2]
    apply amBind_fatal_ne _ _ _ (stepAssociate_fatal_ne_appmem _ _ _ _ _ _ _)
    intro c2
    apply amBind_fatal_ne _ _ _ (stepTo_fatal_ne_appmem _ _ _ _ _)
    intro c3
    apply amBind_fatal_ne _ _ _ (stepFrom_fatal_ne_appmem _ _ _ _ _)
    intro c4
    exact stepDisassociate_fatal_ne_appmem _ _ _

/-- Witness for C9: an `Associate` event whose host endpoint is outside
application memory fails with the app-mem assertion; an interval entirely
inside application memory does not. -/
theorem appmem_assert_guards_dispatcher_witness :
    AnnotateMapping (fun _ => false) initCtx 0x1000 0x7b80 4
        ompt_device_mem_flag_associate none =
      ⟨initCtx, some Diag.appMemAssert⟩ ∧
    (AnnotateMapping (fun _ => true) initCtx 0x1000 0x7b80 4
        ompt_device_mem_flag_associate none).fatal ≠
      some Diag.appMemAssert := by
  constructor
  · exact (appmem_assert_guards_dispatcher (fun _ => false) initCtx 0x1000
      0x7b80 4 ompt_device_mem_flag_associate none).1 (by simp)
  · exact (appmem_assert_guards_dispatcher (fun _ => true) initCtx 0x1000
      0x7b80 4 ompt_device_mem_flag_associate none).2 (by decide)
      (fun a _ _ => rfl)

/-- C2: after any `Associate` event, the only host-side registry record
overlapping the associated host interval is the newly inserted one: a
conflicting host insert is repaired by removing every overlapping host
record and re-inserting, so no duplicate or stale entry survives. -/
theorem host_conflict_repair_keeps_latest (isAppMem : Nat → Bool)
    (ctx : TrackerCtx) (src_addr dest_addr bytes optype : Nat)
    (var_name : Option String) (hb : 0 < bytes)
    (h1 : isAppMem src_addr = true)
    (h2 : isAppMem (src_addr + bytes - 1) = true)
    (hA : optype &&& ompt_device_mem_flag_associate ≠ 0) :
    (((AnnotateMapping isAppMem ctx src_addr dest_addr bytes optype
        var_name).ctx).h_to_t).nodes.filter
        (fun nd => overlap nd.range ⟨src_addr, src_addr + bytes⟩) =
      [⟨⟨src_addr, src_addr + bytes⟩, ⟨dest_addr, bytes, var_name⟩⟩] := by
  have h4 : ∀ c4 : TrackerCtx,
      ((stepDisassociate optype ⟨dest_addr, dest_addr + bytes⟩ c4).ctx).h_to_t
        = c4.h_to_t := fun c4 => stepDisassociate_h_to_t _ _ _
  have h3 : ∀ c3 : TrackerCtx,
      ((amBind (stepFrom optype ⟨src_addr, src_addr + bytes⟩
          ⟨dest_addr, dest_addr + bytes⟩ bytes c3) (fun c4 =>
        stepDisassociate optype ⟨dest_addr, dest_addr + bytes⟩ c4)).ctx).h_to_t
        = c3.h_to_t := by
    intro c3
    rw [amBind_h_to_t _ _ h4, stepFrom_h_to_t]
  have tailpres : ∀ c2 : TrackerCtx,
      ((amBind (stepTo optype ⟨src_addr, src_addr + bytes⟩
          ⟨dest_addr, dest_addr + bytes⟩ bytes c2) (fun c3 =>
        amBind (stepFrom optype ⟨src_addr, src_addr + bytes⟩
            ⟨dest_addr, dest_addr + bytes⟩ bytes c3) (fun c4 =>
          stepDisassociate optype ⟨dest_addr, dest_addr + bytes⟩
            c4))).ctx).h_to_t = c2.h_to_t := by
    intro c2
    rw [amBind_h_to_t _ _ h3, stepTo_h_to_t]
  rw [AnnotateMapping_appmem_pass _ _ _ _ _ _ _ h1 h2]
  rw [amBind_h_to_t _ _ tailpres]
  rw [stepAssociate_h_to_t _ _ _ _ _ _ _ hA]
  have hself : overlap ⟨src_addr, src_addr + bytes⟩
      ⟨src_addr, src_addr + bytes⟩ = true := overlap_self _ _ hb
  split_ifs with hAny
  · exact filter_keep_head _ _ _ hself
      (filter_not_filter (fun nd : Node => overlap nd.range
        ⟨src_addr, src_addr + bytes⟩) _)
  · refine filter_keep_head _ _ _ hself ?_
    rw [List.filter_eq_nil_iff]
    intro nd hnd
    have := List.any_eq_false.mp (Bool.eq_false_iff.mpr hAny) nd hnd
    simpa using this

/-- Witness for C2: a fresh association whose host interval overlaps an
existing host record replaces it; only the new record remains in the
overlap range. -/
theorem host_conflict_repair_keeps_latest_witness :
    (((AnnotateMapping (fun _ => true)
        ⟨⟨[⟨⟨0x1000, 0x1008⟩, ⟨0x9000, 8, none⟩⟩]⟩, ⟨[]⟩,
          fun _ => ⟨false, false⟩⟩
        0x1000 0x7b80 4 ompt_device_mem_flag_associate
        none).ctx).h_to_t).nodes.filter
        (fun nd => overlap nd.range ⟨0x1000, 0x1000 + 4⟩) =
      [⟨⟨0x1000, 0x1000 + 4⟩, ⟨0x7b80, 4, none⟩⟩] :=
  host_conflict_repair_keeps_latest (fun _ => true)
    ⟨⟨[⟨⟨0x1000, 0x1008⟩, ⟨0x9000, 8, none⟩⟩]⟩, ⟨[]⟩, fun _ => ⟨false, false⟩⟩
    0x1000 0x7b80 4 ompt_device_mem_flag_associate none
    (by decide) rfl rfl (by decide)

/-- C3: an `Associate` whose device interval overlaps an existing
device-to-host record raises the fatal "already involved in a mapping"
diagnostic, and the pre-existing device-side record is still in the
registry at the abort point — device conflicts are never repaired. -/
theorem device_conflict_fatal_keeps_record (isAppMem : Nat → Bool)
    (ctx : TrackerCtx) (src_addr dest_addr bytes optype : Nat)
    (var_name : Option String) (nd : Node)
    (h1 : isAppMem src_addr = true)
    (h2 : isAppMem (src_addr + bytes - 1) = true)
    (hA : optype &&& ompt_device_mem_flag_associate ≠ 0)
    (hmem : nd ∈ ctx.t_to_h.nodes)
    (hov : overlap nd.range ⟨dest_addr, dest_addr + bytes⟩ = true) :
    (AnnotateMapping isAppMem ctx src_addr dest_addr bytes optype
        var_name).fatal = some Diag.associateConflict ∧
    nd ∈ (((AnnotateMapping isAppMem ctx src_addr dest_addr bytes optype
        var_name).ctx).t_to_h).nodes := by
  rw [AnnotateMapping_appmem_pass _ _ _ _ _ _ _ h1 h2]
  have hconf : ctx.t_to_h.nodes.any
      (fun x => overlap x.range ⟨dest_addr, dest_addr + bytes⟩) = true :=
    List.any_eq_true.mpr ⟨nd, hmem, hov⟩
  have hfatal : (stepAssociate optype ⟨src_addr, src_addr + bytes⟩
      ⟨dest_addr, dest_addr + bytes⟩ ⟨src_addr, bytes, var_name⟩
      ⟨dest_addr, bytes, var_name⟩ bytes ctx).fatal =
      some Diag.associateConflict := by
    rw [stepAssociate_fatal _ _ _ _ _ _ _ hA, if_pos hconf]
  rw [amBind_of_fatal _ _ _ hfatal]
  refine ⟨hfatal, ?_⟩
  rw [stepAssociate_t_to_h _ _ _ _ _ _ _ hA]
  exact List.mem_cons_of_mem _ hmem

/-- Witness for C3: re-associating a device interval already present in
the device-to-host registry is fatal and leaves the old record present. -/
theorem device_conflict_fatal_keeps_record_witness :
    (AnnotateMapping (fun _ => true)
        ⟨⟨[]⟩, ⟨[⟨⟨0x7b80, 0x7b84⟩, ⟨0x2000, 4, none⟩⟩]⟩,
          fun _ => ⟨false, false⟩⟩
        0x1000 0x7b80 4 ompt_device_mem_flag_associate
        none).fatal = some Diag.associateConflict ∧
    (⟨⟨0x7b80, 0x7b84⟩, ⟨0x2000, 4, none⟩⟩ : Node) ∈
      (((AnnotateMapping (fun _ => true)
        ⟨⟨[]⟩, ⟨[⟨⟨0x7b80, 0x7b84⟩, ⟨0x2000, 4, none⟩⟩]⟩,
          fun _ => ⟨false, false⟩⟩
        0x1000 0x7b80 4 ompt_device_mem_flag_associate
        none).ctx).t_to_h).nodes :=
  device_conflict_fatal_keeps_record (fun _ => true)
    ⟨⟨[]⟩, ⟨[⟨⟨0x7b80, 0x7b84⟩, ⟨0x2000, 4, none⟩⟩]⟩, fun _ => ⟨false, false⟩⟩
    0x1000 0x7b80 4 ompt_device_mem_flag_associate none
    ⟨⟨0x7b80, 0x7b84⟩, ⟨0x2000, 4, none⟩⟩ rfl rfl (by decide)
    (by simp) (by decide)

/-- C4: a `Disassociate` event whose device interval has no record in the
device-to-host registry is a fatal protocol violation with zero registry
mutation; when the record is present, exactly that device-side record is
removed and nothing else changes. -/
theorem disassociate_missing_fatal_present_removes (isAppMem : Nat → Bool)
    (ctx : TrackerCtx) (src_addr dest_addr bytes : Nat)
    (var_name : Option String) (h1 : isAppMem src_addr = true)
    (h2 : isAppMem (src_addr + bytes - 1) = true) :
    (ctx.t_to_h.find ⟨dest_addr, dest_addr + bytes⟩ = none →
      AnnotateMapping isAppMem ctx src_addr dest_addr bytes
          ompt_device_mem_flag_disassociate var_name =
        ⟨ctx, some Diag.disassociateNotMapped⟩) ∧
    (∀ (l₁ : List Node) (nd : Node) (l₂ : List Node),
      ctx.t_to_h.nodes = l₁ ++ nd :: l₂ →
      overlap nd.range ⟨dest_addr, dest_addr + bytes⟩ = true →
      (∀ x ∈ l₁, overlap x.range ⟨dest_addr, dest_addr + bytes⟩ = false) →
      AnnotateMapping isAppMem ctx src_addr dest_addr bytes
          ompt_device_mem_flag_disassociate var_name =
        ⟨⟨ctx.h_to_t, ⟨l₁ ++ l₂⟩, ctx.vsm⟩, none⟩) := by
  constructor
  · intro hf
    rw [AnnotateMapping_disassociate_eq _ _ _ _ _ _ h1 h2]
    exact stepDisassociate_none _ _ _ (by decide) hf
  · intro l₁ nd l₂ hdec hov hl₁
    rw [AnnotateMapping_disassociate_eq _ _ _ _ _ _ h1 h2]
    have hfind : ctx.t_to_h.find ⟨dest_addr, dest_addr + bytes⟩ = some nd := by
      unfold IntervalMap.find
      rw [hdec]
      exact find?_middle _ _ _ _ hl₁ hov
    rw [stepDisassociate_some _ _ _ _ (by decide) hfind]
    have hrem : ctx.t_to_h.remove ⟨dest_addr, dest_addr + bytes⟩ =
        ⟨l₁ ++ l₂⟩ := by
      unfold IntervalMap.remove
      rw [hdec]
      exact congrArg IntervalMap.mk (eraseP_middle _ _ _ _ hl₁ hov)
    rw [hrem]

/-- Witness for C4: disassociating a never-associated device address on the
empty registry is fatal and mutates nothing; disassociating a present
record removes exactly it. -/
theorem disassociate_missing_fatal_present_removes_witness :
    AnnotateMapping (fun _ => true) initCtx 0x1000 0x7b80 4
        ompt_device_mem_flag_disassociate none =
      ⟨initCtx, some Diag.disassociateNotMapped⟩ ∧
    AnnotateMapping (fun _ => true)
        ⟨⟨[]⟩, ⟨[⟨⟨0x7b80, 0x7b84⟩, ⟨0x1000, 4, none⟩⟩]⟩,
          fun _ => ⟨false, false⟩⟩ 0x1000 0x7b80 4
        ompt_device_mem_flag_disassociate none =
      ⟨⟨⟨[]⟩, ⟨[]⟩, fun _ => ⟨false, false⟩⟩, none⟩ := by
  constructor
  · exact (disassociate_missing_fatal_present_removes (fun _ => true) initCtx
      0x1000 0x7b80 4 none rfl rfl).1 rfl
  · exact (disassociate_missing_fatal_present_removes (fun _ => true)
      ⟨⟨[]⟩, ⟨[⟨⟨0x7b80, 0x7b84⟩, ⟨0x1000, 4, none⟩⟩]⟩,
        fun _ => ⟨false, false⟩⟩
      0x1000 0x7b80 4 none rfl rfl).2 [] ⟨⟨0x7b80, 0x7b84⟩, ⟨0x1000, 4, none⟩⟩
      [] rfl (by decide) (by simp)

/-- C5: a `To` event requires the device interval to be found in the
device-to-host registry (fatal "does not involve in any mapping" otherwise,
with no state change) and on success marks the cells of the mapped range
`device_has_value = true`; symmetrically a `From` event requires the same
lookup and marks `host_has_value = true`. -/
theorem to_from_require_mapping_and_set_validity (isAppMem : Nat → Bool)
    (ctx : TrackerCtx) (src_addr dest_addr bytes : Nat)
    (var_name : Option String) (h1 : isAppMem src_addr = true)
    (h2 : isAppMem (src_addr + bytes - 1) = true) :
    (ctx.t_to_h.find ⟨dest_addr, dest_addr + bytes⟩ = none →
      AnnotateMapping isAppMem ctx src_addr dest_addr bytes
          ompt_device_mem_flag_to var_name = ⟨ctx, some Diag.toNotMapped⟩ ∧
      AnnotateMapping isAppMem ctx src_addr dest_addr bytes
          ompt_device_mem_flag_from var_name =
        ⟨ctx, some Diag.fromNotMapped⟩) ∧
    (∀ nd : Node, ctx.t_to_h.find ⟨dest_addr, dest_addr + bytes⟩ = some nd →
      ((AnnotateMapping isAppMem ctx src_addr dest_addr bytes
          ompt_device_mem_flag_to var_name).fatal = none ∧
        ∀ a, src_addr ≤ a → a < src_addr + bytes →
          (((AnnotateMapping isAppMem ctx src_addr dest_addr bytes
            ompt_device_mem_flag_to var_name).ctx).vsm
              a).device_has_value = true) ∧
      ((AnnotateMapping isAppMem ctx src_addr dest_addr bytes
          ompt_device_mem_flag_from var_name).fatal = none ∧
        ∀ a, src_addr ≤ a → a < src_addr + bytes →
          (((AnnotateMapping isAppMem ctx src_addr dest_addr bytes
            ompt_device_mem_flag_from var_name).ctx).vsm
              a).host_has_value = true)) := by
  constructor
  · intro hf
    constructor
    · rw [AnnotateMapping_to_eq _ _ _ _ _ _ h1 h2]
      exact stepTo_none _ _ _ _ _ (by decide) hf
    · rw [AnnotateMapping_from_eq _ _ _ _ _ _ h1 h2]
      exact stepFrom_none _ _ _ _ _ (by decide) hf
  · intro nd hf
    constructor
    · rw [AnnotateMapping_to_eq _ _ _ _ _ _ h1 h2]
      rw [stepTo_some _ _ _ _ _ _ (by decide) hf]
      exact ⟨rfl, fun a ha1 ha2 => VsmRangeUpdateMapTo_in _ _ _ _ ha1 ha2⟩
    · rw [AnnotateMapping_from_eq _ _ _ _ _ _ h1 h2]
      rw [stepFrom_some _ _ _ _ _ _ (by decide) hf]
      exact ⟨rfl, fun a ha1 ha2 => VsmRangeUpdateMapFrom_in _ _ _ _ ha1 ha2⟩

/-- Witness for C5: `To` on an unmapped device interval is fatal; `To` on a
mapped one succeeds and sets `device_has_value` on a covered cell. -/
theorem to_from_require_mapping_and_set_validity_witness :
    AnnotateMapping (fun _ => true) initCtx 0x1000 0x7b80 4
        ompt_device_mem_flag_to none = ⟨initCtx, some Diag.toNotMapped⟩ ∧
    (((AnnotateMapping (fun _ => true)
        ⟨⟨[]⟩, ⟨[⟨⟨0x7b80, 0x7b84⟩, ⟨0x1000, 4, none⟩⟩]⟩,
          fun _ => ⟨false, false⟩⟩ 0x1000 0x7b80 4
        ompt_device_mem_flag_to none).ctx).vsm 0x1001).device_has_value =
      true := by
  constructor
  · exact ((to_from_require_mapping_and_set_validity (fun _ => true) initCtx
      0x1000 0x7b80 4 none rfl rfl).1 rfl).1
  · exact (((to_from_require_mapping_and_set_validity (fun _ => true)
      ⟨⟨[]⟩, ⟨[⟨⟨0x7b80, 0x7b84⟩, ⟨0x1000, 4, none⟩⟩]⟩,
        fun _ => ⟨false, false⟩⟩
      0x1000 0x7b80 4 none rfl rfl).2 ⟨⟨0x7b80, 0x7b84⟩, ⟨0x1000, 4, none⟩⟩
      (by decide)).1).2 0x1001 (by decide) (by decide)


lemma amBind_none (r : AmResult) (f : TrackerCtx → AmResult)
    (h : r.fatal = none) : amBind r f = f r.ctx := by
  cases r with
  | mk c fa =>
    cases fa with
    | none => rfl
    | some d => exact absurd h (by simp)

lemma check_access_head (ctx : TrackerCtx) (dest_addr bytes src_addr sz : Nat)
    (var_name : Option String) (old : List Node) (hb : 0 < bytes)
    (ht : ctx.t_to_h = ⟨⟨⟨dest_addr, dest_addr + bytes⟩,
      ⟨src_addr, sz, var_name⟩⟩ :: old⟩) :
    check_access ctx dest_addr bytes =
      ((List.range bytes).map (fun o => src_addr + o)).filter
        (fun a => !(ctx.vsm a).device_has_value) := by
  have hfind : ctx.t_to_h.find ⟨dest_addr, dest_addr + bytes⟩ =
      some ⟨⟨dest_addr, dest_addr + bytes⟩, ⟨src_addr, sz, var_name⟩⟩ := by
    rw [ht]
    unfold IntervalMap.find
    exact List.find?_cons_of_pos _ (overlap_self dest_addr bytes hb)
  unfold check_access
  simp only [hfind, Nat.sub_self, Nat.add_zero]

/-- C1: an `Associate` event without `To` (and without `From`/`Disassociate`)
resets the device-validity bits of the mapped cells, so a device-side
`check_access` over the associated device interval reports one Inconsistency
violation per accessed cell; after a subsequent `To` event covering the
interval, the same check reports none. -/
theorem associate_without_to_reports_then_to_clears (isAppMem : Nat → Bool)
    (ctx : TrackerCtx) (src_addr dest_addr bytes optype : Nat)
    (var_name : Option String) (hb : 0 < bytes)
    (h1 : isAppMem src_addr = true)
    (h2 : isAppMem (src_addr + bytes - 1) = true)
    (hA : optype &&& ompt_device_mem_flag_associate ≠ 0)
    (hT : optype &&& ompt_device_mem_flag_to = 0)
    (hF : optype &&& ompt_device_mem_flag_from = 0)
    (hD : optype &&& ompt_device_mem_flag_disassociate = 0)
    (hconf : ctx.t_to_h.nodes.any
      (fun nd => overlap nd.range ⟨dest_addr, dest_addr + bytes⟩) = false) :
    (AnnotateMapping isAppMem ctx src_addr dest_addr bytes optype
        var_name).fatal = none ∧
    (check_access ((AnnotateMapping isAppMem ctx src_addr dest_addr bytes
        optype var_name).ctx) dest_addr bytes).length = bytes ∧
    ((AnnotateMapping isAppMem ((AnnotateMapping isAppMem ctx src_addr
        dest_addr bytes optype var_name).ctx) src_addr dest_addr bytes
        ompt_device_mem_flag_to var_name).fatal = none ∧
      check_access ((AnnotateMapping isAppMem ((AnnotateMapping isAppMem ctx
        src_addr dest_addr bytes optype var_name).ctx) src_addr dest_addr
        bytes ompt_device_mem_flag_to var_name).ctx) dest_addr bytes = []) := by
  have hAfatal : (stepAssociate optype ⟨src_addr, src_addr + bytes⟩
      ⟨dest_addr, dest_addr + bytes⟩ ⟨src_addr, bytes, var_name⟩
      ⟨dest_addr, bytes, var_name⟩ bytes ctx).fatal = none := by
    rw [stepAssociate_fatal _ _ _ _ _ _ _ hA, if_neg (by simp [hconf])]
  have hr : AnnotateMapping isAppMem ctx src_addr dest_addr bytes optype
      var_name = ⟨(stepAssociate optype ⟨src_addr, src_addr + bytes⟩
        ⟨dest_addr, dest_addr + bytes⟩ ⟨src_addr, bytes, var_name⟩
        ⟨dest_addr, bytes, var_name⟩ bytes ctx).ctx, none⟩ := by
    rw [AnnotateMapping_appmem_pass _ _ _ _ _ _ _ h1 h2]
    rw [amBind_none _ _ hAfatal]
    rw [stepTo_not _ _ _ _ _ hT, amBind_mk_none,
      stepFrom_not _ _ _ _ _ hF, amBind_mk_none,
      stepDisassociate_not _ _ _ hD]
  have ht : ((stepAssociate optype ⟨src_addr, src_addr + bytes⟩
      ⟨dest_addr, dest_addr + bytes⟩ ⟨src_addr, bytes, var_name⟩
      ⟨dest_addr, bytes, var_name⟩ bytes ctx).ctx).t_to_h =
      ⟨⟨⟨dest_addr, dest_addr + bytes⟩, ⟨src_addr, bytes, var_name⟩⟩ ::
        ctx.t_to_h.nodes⟩ :=
    stepAssociate_t_to_h _ _ _ _ _ _ _ hA
  have hv : ((stepAssociate optype ⟨src_addr, src_addr + bytes⟩
      ⟨dest_addr, dest_addr + bytes⟩ ⟨src_addr, bytes, var_name⟩
      ⟨dest_addr, bytes, var_name⟩ bytes ctx).ctx).vsm =
      VsmRangeDeviceReset ctx.vsm src_addr bytes :=
    stepAssociate_vsm_noconf _ _ _ _ _ _ _ hA hT hconf
  have hrt : ((AnnotateMapping isAppMem ctx src_addr dest_addr bytes optype
      var_name).ctx).t_to_h =
      ⟨⟨⟨dest_addr, dest_addr + bytes⟩, ⟨src_addr, bytes, var_name⟩⟩ ::
        ctx.t_to_h.nodes⟩ := by
    rw [hr]
    exact ht
  have hrv : ((AnnotateMapping isAppMem ctx src_addr dest_addr bytes optype
      var_name).ctx).vsm = VsmRangeDeviceReset ctx.vsm src_addr bytes := by
    rw [hr]
    exact hv
  have hfind2 : (((AnnotateMapping isAppMem ctx src_addr dest_addr bytes
      optype var_name).ctx).t_to_h).find ⟨dest_addr, dest_addr + bytes⟩ =
      some ⟨⟨dest_addr, dest_addr + bytes⟩, ⟨src_addr, bytes, var_name⟩⟩ := by
    rw [hrt]
    unfold IntervalMap.find
    exact List.find?_cons_of_pos _ (overlap_self dest_addr bytes hb)
  have hfull : AnnotateMapping isAppMem ((AnnotateMapping isAppMem ctx
      src_addr dest_addr bytes optype var_name).ctx) src_addr dest_addr
      bytes ompt_device_mem_flag_to var_name =
      ⟨{ (AnnotateMapping isAppMem ctx src_addr dest_addr bytes optype
          var_name).ctx with
        vsm := VsmRangeUpdateMapTo ((AnnotateMapping isAppMem ctx src_addr
          dest_addr bytes optype var_name).ctx).vsm src_addr bytes },
        none⟩ := by
    rw [AnnotateMapping_to_eq _ _ _ _ _ _ h1 h2]
    exact stepTo_some _ _ _ _ _ _ (by decide) hfind2
  have hft : ((AnnotateMapping isAppMem ((AnnotateMapping isAppMem ctx
      src_addr dest_addr bytes optype var_name).ctx) src_addr dest_addr
      bytes ompt_device_mem_flag_to var_name).ctx).t_to_h =
      ⟨⟨⟨dest_addr, dest_addr + bytes⟩, ⟨src_addr, bytes, var_name⟩⟩ ::
        ctx.t_to_h.nodes⟩ := by
    rw [hfull]
    exact hrt
  have hfv : ((AnnotateMapping isAppMem ((AnnotateMapping isAppMem ctx
      src_addr dest_addr bytes optype var_name).ctx) src_addr dest_addr
      bytes ompt_device_mem_flag_to var_name).ctx).vsm =
      VsmRangeUpdateMapTo (VsmRangeDeviceReset ctx.vsm src_addr bytes)
        src_addr bytes := by
    rw [hfull]
    show VsmRangeUpdateMapTo ((AnnotateMapping isAppMem ctx src_addr
      dest_addr bytes optype var_name).ctx).vsm src_addr bytes = _
    rw [hrv]
  refine ⟨by rw [hr], ?_, ?_⟩
  · rw [check_access_head _ dest_addr bytes src_addr bytes var_name
      ctx.t_to_h.nodes hb hrt]
    rw [List.filter_eq_self.mpr ?_]
    · rw [List.length_map, List.length_range]
    · intro a ha
      obtain ⟨o, ho, rfl⟩ := List.mem_map.mp ha
      have ho' : o < bytes := List.mem_range.mp ho
      rw [hrv, VsmRangeDeviceReset_in ctx.vsm src_addr bytes (src_addr + o)
        (Nat.le_add_right _ _) (by omega)]
      rfl
  · refine ⟨by rw [hfull], ?_⟩
    rw [check_access_head _ dest_addr bytes src_addr bytes var_name
      ctx.t_to_h.nodes hb hft]
    rw [List.filter_eq_nil_iff]
    intro a ha
    obtain ⟨o, ho, rfl⟩ := List.mem_map.mp ha
    have ho' : o < bytes := List.mem_range.mp ho
    rw [hfv, VsmRangeUpdateMapTo_in (VsmRangeDeviceReset ctx.vsm src_addr
      bytes) src_addr bytes (src_addr + o) (Nat.le_add_right _ _) (by omega)]
    simp

/-- Witness for C1: `Alloc|Associate` of host `[0x1000, 0x1004)` to device
`[0x7b80, 0x7b84)` without `To`, on the empty tracker: `check_access` of the
device interval reports 4 violations (one per byte cell); after a `To`
event, it reports none. -/
theorem associate_without_to_reports_then_to_clears_witness :
    (AnnotateMapping (fun _ => true) initCtx 0x1000 0x7b80 4
        (ompt_device_mem_flag_alloc ||| ompt_device_mem_flag_associate)
        none).fatal = none ∧
    (check_access ((AnnotateMapping (fun _ => true) initCtx 0x1000 0x7b80 4
        (ompt_device_mem_flag_alloc ||| ompt_device_mem_flag_associate)
        none).ctx) 0x7b80 4).length = 4 ∧
    ((AnnotateMapping (fun _ => true) ((AnnotateMapping (fun _ => true)
        initCtx 0x1000 0x7b80 4
        (ompt_device_mem_flag_alloc ||| ompt_device_mem_flag_associate)
        none).ctx) 0x1000 0x7b80 4 ompt_device_mem_flag_to
        none).fatal = none ∧
      check_access ((AnnotateMapping (fun _ => true) ((AnnotateMapping
        (fun _ => true) initCtx 0x1000 0x7b80 4
        (ompt_device_mem_flag_alloc ||| ompt_device_mem_flag_associate)
        none).ctx) 0x1000 0x7b80 4 ompt_device_mem_flag_to
        none).ctx) 0x7b80 4 = []) :=
  associate_without_to_reports_then_to_clears (fun _ => true) initCtx
    0x1000 0x7b80 4
    (ompt_device_mem_flag_alloc ||| ompt_device_mem_flag_associate) none
    (by decide) rfl rfl (by decide) (by decide) (by decide) (by decide)
    (by decide)


/-- C6 (evidence of divergence): the entire body of the `release` branch of
`AnnotateMapping` is commented out in the source, so an event carrying the
`Release` flag performs no mutation at all: on a state holding a fully
valid mapping, the whole tracker state — registry pair and every shadow
cell — survives unchanged, and no cell is freed or cleared. -/
theorem release_performs_no_mutation :
    AnnotateMapping (fun _ => true) ctxValid 0x1000 0x7b80 4
        ompt_device_mem_flag_release none = ⟨ctxValid, none⟩ ∧
    (ctxValid.vsm 0x1000).device_has_value = true := by
  constructor
  · rw [AnnotateMapping_appmem_pass _ _ _ _ _ _ _ rfl rfl]
    rw [stepAssociate_not _ _ _ _ _ _ _ (by decide), amBind_mk_none]
    rw [stepTo_not _ _ _ _ _ (by decide), amBind_mk_none]
    rw [stepFrom_not _ _ _ _ _ (by decide), amBind_mk_none]
    rw [stepDisassociate_not _ _ _ (by decide)]
  · rfl

/-- C7 (counterexample): the `Alloc` branch of `AnnotateMapping` is empty
in the source: an `Alloc`-only event on a state whose cells already hold
values leaves the state untouched — in particular the cells covering the
interval are not created in (nor reset to) the Uninitialized state. -/
theorem alloc_does_not_reset_cells :
    AnnotateMapping (fun _ => true) ctxValid 0x1000 0x7b80 4
        ompt_device_mem_flag_alloc none = ⟨ctxValid, none⟩ ∧
    ((AnnotateMapping (fun _ => true) ctxValid 0x1000 0x7b80 4
        ompt_device_mem_flag_alloc none).ctx).vsm 0x1000 ≠
      (⟨false, false⟩ : Cell) := by
  have h : AnnotateMapping (fun _ => true) ctxValid 0x1000 0x7b80 4
      ompt_device_mem_flag_alloc none = ⟨ctxValid, none⟩ := by
    rw [AnnotateMapping_appmem_pass _ _ _ _ _ _ _ rfl rfl]
    rw [stepAssociate_not _ _ _ _ _ _ _ (by decide), amBind_mk_none]
    rw [stepTo_not _ _ _ _ _ (by decide), amBind_mk_none]
    rw [stepFrom_not _ _ _ _ _ (by decide), amBind_mk_none]
    rw [stepDisassociate_not _ _ _ (by decide)]
  refine ⟨h, ?_⟩
  rw [h]
  decide

/-- C7 (amended): an event carrying only the `Alloc` flag performs no
explicit operation: the `Alloc` branch of `AnnotateMapping` has an empty
body, shadow cells are neither explicitly reserved nor reset, and the
tracker state is returned unchanged with no diagnostic. -/
theorem alloc_only_event_is_identity (isAppMem : Nat → Bool)
    (ctx : TrackerCtx) (src_addr dest_addr bytes : Nat)
    (var_name : Option String) (h1 : isAppMem src_addr = true)
    (h2 : isAppMem (src_addr + bytes - 1) = true) :
    AnnotateMapping isAppMem ctx src_addr dest_addr bytes
        ompt_device_mem_flag_alloc var_name = ⟨ctx, none⟩ := by
  rw [AnnotateMapping_appmem_pass _ _ _ _ _ _ _ h1 h2]
  rw [stepAssociate_not _ _ _ _ _ _ _ (by decide), amBind_mk_none]
  rw [stepTo_not _ _ _ _ _ (by decide), amBind_mk_none]
  rw [stepFrom_not _ _ _ _ _ (by decide), amBind_mk_none]
  rw [stepDisassociate_not _ _ _ (by decide)]

/-- Witness for the amended C7 at a concrete input. -/
theorem alloc_only_event_is_identity_witness :
    AnnotateMapping (fun _ => true) initCtx 0x1000 0x7b80 4
        ompt_device_mem_flag_alloc none = ⟨initCtx, none⟩ :=
  alloc_only_event_is_identity (fun _ => true) initCtx 0x1000 0x7b80 4
    none rfl rfl

/-- C10: the Arbalest GEP instrumentation emits
`__arbalest_check_bound(base, derived, size)` calls only inside functions
whose name starts with the outlined-function marker, and only attached to
load instructions whose pointer operand is the GEP result; stores and
derived-pointer uses in other functions never receive a bound check.
Conversely, inside a marked function every load through a GEP result gets
the call. -/
theorem gep_bound_checks_only_loads_in_outlined (pfx fname : List Char)
    (body : List Inst) :
    (pfx.isPrefixOf fname = false → arbalestGEPChecks pfx fname body = []) ∧
    (∀ c ∈ arbalestGEPChecks pfx fname body,
      Inst.gep c.derived c.base ∈ body ∧
      Inst.load c.at_load c.derived c.size ∈ body) ∧
    (pfx.isPrefixOf fname = true →
      ∀ gid gbase lid sz, Inst.gep gid gbase ∈ body →
        Inst.load lid gid sz ∈ body →
        (⟨gbase, gid, sz, lid⟩ : CheckBoundCall) ∈
          arbalestGEPChecks pfx fname body) := by
  refine ⟨?_, ?_, ?_⟩
  · intro h
    unfold arbalestGEPChecks
    rw [if_neg (by simp [h])]
  · intro c hc
    unfold arbalestGEPChecks at hc
    split_ifs at hc with hs
    · obtain ⟨i, hi, hci⟩ := List.mem_flatMap.mp hc
      cases i with
      | gep gid gbase =>
        unfold instrumentGEP at hci
        obtain ⟨j, hj, hcj⟩ := List.mem_filterMap.mp hci
        cases j with
        | load lid ptr sz =>
          have hcj2 : (if ptr = gid then
              some (⟨gbase, gid, sz, lid⟩ : CheckBoundCall) else none) =
              some c := hcj
          rcases Decidable.em (ptr = gid) with hp | hp
          · rw [if_pos hp] at hcj2
            obtain rfl := Option.some.inj hcj2
            subst hp
            exact ⟨hi, hj⟩
          · rw [if_neg hp] at hcj2
            exact Option.noConfusion hcj2
        | store lid ptr sz => exact Option.noConfusion hcj
        | gep gid2 gbase2 => exact Option.noConfusion hcj
        | other oid => exact Option.noConfusion hcj
      | load lid ptr sz => exact absurd hci (List.not_mem_nil c)
      | store lid ptr sz => exact absurd hci (List.not_mem_nil c)
      | other oid => exact absurd hci (List.not_mem_nil c)
    · exact absurd hc (List.not_mem_nil c)
  · intro hs gid gbase lid sz hg hl
    unfold arbalestGEPChecks
    rw [if_pos hs]
    refine List.mem_flatMap.mpr ⟨Inst.gep gid gbase, hg, ?_⟩
    unfold instrumentGEP
    exact List.mem_filterMap.mpr ⟨Inst.load lid gid sz, hl, by simp⟩

/-- Witness for C10: in `main` (no outlined marker) no check is emitted;
in an outlined function, the load through the GEP gets exactly one check,
applied via the positive direction of the theorem. -/
theorem gep_bound_checks_only_loads_in_outlined_witness :
    arbalestGEPChecks OptPfx "main".toList
        [Inst.gep 1 0, Inst.load 2 1 4, Inst.store 3 1 4] = [] ∧
    (⟨0, 1, 4, 2⟩ : CheckBoundCall) ∈
      arbalestGEPChecks OptPfx ".omp_outlined.".toList
        [Inst.gep 1 0, Inst.load 2 1 4, Inst.store 3 1 4] := by
  constructor
  · exact (gep_bound_checks_only_loads_in_outlined OptPfx "main".toList
      [Inst.gep 1 0, Inst.load 2 1 4, Inst.store 3 1 4]).1 (by decide)
  · exact (gep_bound_checks_only_loads_in_outlined OptPfx
      ".omp_outlined.".toList
      [Inst.gep 1 0, Inst.load 2 1 4, Inst.store 3 1 4]).2.2 (by decide)
      1 0 2 4 (by simp) (by simp)

end Arbalest
